import Mathlib

/-!
Shallow embedding of the telemetry-synchronization and control-state core of
`src/src/App.js` (React fan-controller dashboard), together with proofs of the
specification's claims about it.

Modelling conventions:
* A JavaScript `Date` wrapping an epoch-millis number is modelled as the
  `Int` number of milliseconds itself (`new Date(ms)` is the identity here).
* Temperatures and thresholds are JS numbers used as ordinary reals; they are
  modelled as `ℚ`.  Fan speeds are integer percentages, modelled as `Int`.
* The React `useState` cells of the `App` component are gathered into one
  record `AppState`; each setter call becomes a functional record update.
* The browser runtime state that the component manipulates through side
  effects — the queue of `setTimeout` callbacks and the count of dispatched
  config-write POST requests — is carried in a `World` record around
  `AppState`, so that timer firing and request dispatch are explicit steps.
-/

/-- One telemetry record: `{timestamp, temperature, fanSpeed}`.  This is both
the shape of the bulk-fetch / push payloads and (after the identity-like
`map` in `fetchData`) the shape of the chart points stored in `data`. -/
structure Sample where
  timestamp : Int
  temperature : ℚ
  fanSpeed : Int
deriving DecidableEq, Repr

/-- The update status enum of the threshold state machine
(`useState('idle')` in App.js). -/
inductive Status where
  | idle
  | updating
  | success
  | error
deriving DecidableEq, Repr

/-- The React state cells of the `App` component (App.js lines 12–18):
`data`, `currentTemp`, `currentFanSpeed`, `threshold` (applied),
`tempThreshold` (pending), `lastUpdate`, `status`. -/
structure AppState where
  data : List Sample
  currentTemp : ℚ
  currentFanSpeed : Int
  threshold : ℚ
  tempThreshold : ℚ
  lastUpdate : Option Int
  status : Status
deriving DecidableEq, Repr

/-- Initial component state: `useState([])`, `useState(0)`, `useState(0)`,
`useState(30)`, `useState(30)`, `useState(null)`, `useState('idle')`. -/
def initState : AppState :=
  { data := []
    currentTemp := 0
    currentFanSpeed := 0
    threshold := 30
    tempThreshold := 30
    lastUpdate := none
    status := .idle }

/-- The buffer install performed by `fetchData` on a successful response
(App.js lines 62–68): `jsonData.map(item => ({...})).reverse()`.  The `map`
only rewraps the same three fields (with `new Date` on the timestamp, the
identity in this model), so the whole transform is `List.reverse`.  There is
no sorting step and no truncation in the source. -/
def insertBatch (items : List Sample) : List Sample :=
  items.reverse

/-- The buffer update performed by the `data_update` push handler
(App.js lines 32–41): `[newDataPoint, ...prevData].slice(0, 50)`,
i.e. prepend the new point and keep the first 50 entries. -/
def insertOne (s : Sample) (buf : List Sample) : List Sample :=
  (s :: buf).take 50

/-- `snapshot` — reading the `data` state array as handed to the chart
(App.js line 262, `data={data}`).  The source passes the live array through
unchanged, so the snapshot is the buffer itself. -/
def snapshot (buf : List Sample) : List Sample :=
  buf

/-- Folding a whole sequence of `data_update` pushes into the buffer, oldest
call first. -/
def insertAll (samples : List Sample) (buf : List Sample) : List Sample :=
  samples.foldl (fun b s => insertOne s b) buf

/-- The full `data_update` push handler (App.js lines 26–42): unconditionally
overwrite `currentTemp`, `currentFanSpeed`, `lastUpdate` with the payload's
fields, and prepend-and-truncate the chart buffer.  The source performs no
comparison between the event's timestamp and the stored `lastUpdate`. -/
def handleDataUpdate (ev : Sample) (s : AppState) : AppState :=
  { s with
    currentTemp := ev.temperature
    currentFanSpeed := ev.fanSpeed
    lastUpdate := some ev.timestamp
    data := insertOne ev s.data }

/-- `fetchData` (App.js lines 55–80).  The network interaction is modelled by
its outcome: `some items` when the fetch resolved with `response.ok` and body
`items`; `none` when the fetch threw (network error) or `response.ok` was
false — in both of those cases the source only logs (or does nothing) and no
state cell is written.  On success the chart buffer is replaced by
`insertBatch` of the body, and, when the resulting array is non-empty, the
current-value cells are set from its last element
(`chartData[chartData.length - 1]`). -/
def fetchData (resp : Option (List Sample)) (s : AppState) : AppState :=
  match resp with
  | none => s
  | some items =>
    let chartData := insertBatch items
    let s' := { s with data := chartData }
    match chartData.getLast? with
    | none => s'
    | some last =>
      { s' with
        currentTemp := last.temperature
        currentFanSpeed := last.fanSpeed
        lastUpdate := some last.timestamp }

/-- `fetchConfig` (App.js lines 82–93).  `some t` models a resolved
`response.ok` fetch with body `{threshold: t}`; `none` models a thrown
network error or a non-ok status, in which case the source only logs and
writes nothing.  On success both `threshold` and `tempThreshold` are set. -/
def fetchConfig (resp : Option ℚ) (s : AppState) : AppState :=
  match resp with
  | none => s
  | some t => { s with threshold := t, tempThreshold := t }

/-- The clamp applied by the browser to the value of the threshold slider
`<input type="range" min="20" max="40">` (App.js lines 221–228): a range
control's value is always kept within `[min, max]`, so `Number(e.target.value)`
as observed by the `onChange` handler is the requested value clamped to
`[20, 40]`. -/
def clampThreshold (v : ℚ) : ℚ :=
  max 20 (min 40 v)

/-- `setPending` — the slider control of App.js lines 221–228: the range
element clamps the requested value to its `min`/`max` bounds and the
`onChange` handler stores it with `setTempThreshold(Number(e.target.value))`.
No other state cell is touched. -/
def setPendingSlider (v : ℚ) (s : AppState) : AppState :=
  { s with tempThreshold := clampThreshold v }

/-- Component state plus the browser-runtime effects the component issues:
`timers` is the queue of pending `setTimeout(() => setStatus('idle'), d)`
callbacks (recorded by their delay `d`), and `requests` counts the
config-write POST requests dispatched so far. -/
structure World where
  app : AppState
  timers : List Nat
  requests : Nat
deriving DecidableEq, Repr

/-- Initial world: fresh component, no pending timers, no requests sent. -/
def initWorld : World :=
  { app := initState, timers := [], requests := 0 }

/-- The synchronous prefix of `updateThreshold` (App.js lines 95–104), up to
the `await` suspension point: set status to `updating` and dispatch the POST
to the config-write endpoint.  The source function itself contains no status
guard. -/
def updateThresholdStart (w : World) : World :=
  { w with
    app := { w.app with status := .updating }
    requests := w.requests + 1 }

/-- A click on the Apply button (App.js lines 234–236): the button carries
`disabled={status === 'updating'}`, and a disabled button fires no `onClick`,
so the click runs `updateThreshold` exactly when the status is not
`updating`. -/
def applyButtonClick (w : World) : World :=
  if w.app.status = .updating then w else updateThresholdStart w

/-- Resumption of `updateThreshold` when its POST resolves (App.js lines
106–121).  `some t` models `response.ok` with body `{threshold: t}`: the
source runs `setThreshold(config.threshold); setStatus('success')` and
schedules `setTimeout(() => setStatus('idle'), 3000)` — it does not write
`tempThreshold`.  `none` models the two failure paths (non-ok status, and a
thrown transport error), whose bodies are identical:
`setStatus('error'); setTimeout(() => setStatus('idle'), 3000)`. -/
def updateThresholdResolve (resp : Option ℚ) (w : World) : World :=
  match resp with
  | some t =>
    { w with
      app := { w.app with threshold := t, status := .success }
      timers := w.timers ++ [3000] }
  | none =>
    { w with
      app := { w.app with status := .error }
      timers := w.timers ++ [3000] }

/-- Firing of the oldest pending status timer.  Every timer the source ever
schedules has the same callback `() => setStatus('idle')` (App.js lines 112,
115, 120); the callback closes over nothing and there is no `clearTimeout`
anywhere in the source, so a due timer always runs and unconditionally sets
the status to `idle`. -/
def statusTimerFire (w : World) : World :=
  match w.timers with
  | [] => w
  | _ :: rest => { w with app := { w.app with status := .idle }, timers := rest }

/-- Boolean check that each adjacent pair of entries has non-decreasing
timestamps (oldest to newest). -/
def chronOk : List Sample → Bool
  | [] => true
  | [_] => true
  | a :: b :: t => decide (a.timestamp ≤ b.timestamp) && chronOk (b :: t)

/-- Boolean check that each adjacent pair of entries has non-increasing
timestamps (newest to oldest, the order of the bulk-fetch response). -/
def newestFirstOk : List Sample → Bool
  | [] => true
  | [_] => true
  | a :: b :: t => decide (b.timestamp ≤ a.timestamp) && newestFirstOk (b :: t)

/-- Chronological order (oldest to newest). -/
def chronological (l : List Sample) : Prop :=
  chronOk l = true

/-- Newest-first order (the order of the bulk-fetch response). -/
def newestFirst (l : List Sample) : Prop :=
  newestFirstOk l = true

instance (l : List Sample) : Decidable (chronological l) :=
  inferInstanceAs (Decidable (chronOk l = true))

instance (l : List Sample) : Decidable (newestFirst l) :=
  inferInstanceAs (Decidable (newestFirstOk l = true))

lemma chronological_iff_chain : ∀ l : List Sample,
    chronological l ↔ l.Chain' (fun a b => a.timestamp ≤ b.timestamp)
  | [] => by simp [chronological, chronOk]
  | [a] => by simp [chronological, chronOk]
  | a :: b :: t => by
    rw [List.chain'_cons, ← chronological_iff_chain (b :: t)]
    simp [chronological, chronOk]

lemma newestFirst_iff_chain : ∀ l : List Sample,
    newestFirst l ↔ l.Chain' (fun a b => b.timestamp ≤ a.timestamp)
  | [] => by simp [newestFirst, newestFirstOk]
  | [a] => by simp [newestFirst, newestFirstOk]
  | a :: b :: t => by
    rw [List.chain'_cons, ← newestFirst_iff_chain (b :: t)]
    simp [newestFirst, newestFirstOk]

/-- A 51-record bulk-fetch body with strictly increasing timestamps. -/
def batch51 : List Sample :=
  (List.range 51).map (fun i => { timestamp := (i : Int), temperature := 0, fanSpeed := 0 })

/-- A two-record newest-first bulk-fetch body. -/
def batchPair : List Sample :=
  [ { timestamp := 100, temperature := 25, fanSpeed := 0 },
    { timestamp := 50, temperature := 22, fanSpeed := 0 } ]

lemma insertAll_cons (s : Sample) (rest : List Sample) (buf : List Sample) :
    insertAll (s :: rest) buf = insertAll rest (insertOne s buf) := rfl

lemma insertOne_length_le (s : Sample) (buf : List Sample) :
    (insertOne s buf).length ≤ 50 := by
  simp [insertOne]

lemma insertOne_head (s : Sample) (buf : List Sample) :
    (insertOne s buf).head? = some s := rfl

/-- C1 counterexample: `insertBatch` performs no truncation, so a 51-record
bulk response installs a 51-entry buffer, and it performs no sorting, so an
oldest-first response yields a snapshot that is not chronological. -/
theorem C1_counterexample :
    (snapshot (insertBatch batch51)).length = 51 ∧
    ¬ (snapshot (insertBatch batch51)).length ≤ 50 ∧
    ¬ chronological (snapshot (insertBatch batch51)) := by
  refine ⟨by decide, by decide, by decide⟩

/-- C1 (amended): `insertBatch` followed by `snapshot` returns exactly the
reversal of the input, with no truncation — the snapshot length equals the
input length, which may exceed 50 — and the snapshot is chronologically
sorted precisely because the bulk feed is newest-first: for a newest-first
input the reversed snapshot is chronological. -/
theorem C1_insertBatch_reverse (items : List Sample) (h : newestFirst items) :
    snapshot (insertBatch items) = items.reverse ∧
    (snapshot (insertBatch items)).length = items.length ∧
    chronological (snapshot (insertBatch items)) := by
  refine ⟨rfl, by simp [snapshot, insertBatch], ?_⟩
  rw [show snapshot (insertBatch items) = items.reverse from rfl,
    chronological_iff_chain, List.chain'_reverse]
  exact (newestFirst_iff_chain items).mp h

/-- Witness for C1 (amended) at the concrete two-record newest-first feed. -/
theorem C1_insertBatch_reverse_witness :
    newestFirst batchPair ∧
    (snapshot (insertBatch batchPair) = batchPair.reverse ∧
     (snapshot (insertBatch batchPair)).length = batchPair.length ∧
     chronological (snapshot (insertBatch batchPair))) :=
  ⟨by decide, C1_insertBatch_reverse batchPair (by decide)⟩

/-- C2: starting from any buffer of length at most 50, any sequence of
`insertOne` calls (the `data_update` push handler's buffer update) leaves the
buffer with length at most 50, and the snapshot's first entry — the most
recently queryable one — is the newest-inserted sample. -/
theorem C2_insertOne_bounded (samples buf : List Sample) (h : buf.length ≤ 50) :
    (snapshot (insertAll samples buf)).length ≤ 50 ∧
    (snapshot (insertAll samples buf)).head? =
      if samples.isEmpty then buf.head? else samples.getLast? := by
  induction samples generalizing buf with
  | nil => simpa [insertAll, snapshot] using h
  | cons s rest ih =>
    have h2 := ih (insertOne s buf) (insertOne_length_le s buf)
    rw [insertAll_cons]
    cases rest with
    | nil =>
      simpa [snapshot, insertAll, insertOne_head] using insertOne_length_le s buf
    | cons b t =>
      simpa [snapshot, List.getLast?_cons_cons] using h2

/-- Witness for C2 at a concrete two-push sequence on the empty buffer. -/
theorem C2_insertOne_bounded_witness :
    ([] : List Sample).length ≤ 50 ∧
    ((snapshot (insertAll batchPair [])).length ≤ 50 ∧
     (snapshot (insertAll batchPair [])).head? =
       if batchPair.isEmpty then ([] : List Sample).head? else batchPair.getLast?) :=
  ⟨by decide, C2_insertOne_bounded batchPair [] (by decide)⟩

/-- C3: the threshold slider clamps every requested value into the legal
range [20, 40], leaves the status untouched in every state, and in
particular a request of 45 results in a pending threshold of 40. -/
theorem C3_setPending_clamps (v : ℚ) (s : AppState) :
    20 ≤ (setPendingSlider v s).tempThreshold ∧
    (setPendingSlider v s).tempThreshold ≤ 40 ∧
    (setPendingSlider v s).status = s.status ∧
    (setPendingSlider 45 s).tempThreshold = 40 := by
  refine ⟨le_max_left _ _, max_le (by norm_num) (min_le_left _ _), rfl, ?_⟩
  show clampThreshold 45 = 40
  rw [clampThreshold]
  norm_num

/-- A world whose component has a locally edited pending threshold of 32
(applied still 30), idle, with no pending timers or requests. -/
def pendingWorld : World :=
  { app := { initState with tempThreshold := 32 }, timers := [], requests := 0 }

/-- C4 counterexample: submitting from `pendingWorld` and receiving a
success response whose server-normalized confirmed threshold is 35 stores 35
into `applied` (`threshold`) but does not re-sync `pending`
(`tempThreshold`), which stays 32 — the success branch of `updateThreshold`
never calls `setTempThreshold`. -/
theorem C4_counterexample :
    (updateThresholdResolve (some 35) (applyButtonClick pendingWorld)).app.threshold = 35 ∧
    (updateThresholdResolve (some 35) (applyButtonClick pendingWorld)).app.status = Status.success ∧
    ¬ (updateThresholdResolve (some 35) (applyButtonClick pendingWorld)).app.tempThreshold =
        (updateThresholdResolve (some 35) (applyButtonClick pendingWorld)).app.threshold := by
  refine ⟨by decide, by decide, by decide⟩

/-- C4 (amended): when the write request resolves with a success response
confirming threshold `t`, the controller stores `t` into `applied` and
enters `success`, but `pending` is left unchanged (it is not re-synced to
the server-confirmed value). -/
theorem C4_success_stores_applied (w : World) (t : ℚ) :
    (updateThresholdResolve (some t) w).app.threshold = t ∧
    (updateThresholdResolve (some t) w).app.status = Status.success ∧
    (updateThresholdResolve (some t) w).app.tempThreshold = w.app.tempThreshold :=
  ⟨rfl, rfl, rfl⟩

/-- C5: clicking Apply while the status is already `updating` is a no-op —
the button is disabled, so the world is unchanged and in particular no
second request is dispatched and the state machine does not re-enter
`updating`. -/
theorem C5_submit_noop_while_updating (w : World) (h : w.app.status = Status.updating) :
    applyButtonClick w = w ∧
    (applyButtonClick w).requests = w.requests := by
  have hw : applyButtonClick w = w := by simp [applyButtonClick, h]
  exact ⟨hw, by rw [hw]⟩

/-- A world with an update request in flight. -/
def updatingWorld : World :=
  { app := { initState with status := .updating }, timers := [], requests := 1 }

/-- Witness for C5 at a concrete in-flight world. -/
theorem C5_submit_noop_witness :
    updatingWorld.app.status = Status.updating ∧
    (applyButtonClick updatingWorld = updatingWorld ∧
     (applyButtonClick updatingWorld).requests = updatingWorld.requests) :=
  ⟨rfl, C5_submit_noop_while_updating updatingWorld rfl⟩

/-- The world after: submit from the initial world, the request fails
(status `error`, a 3000 ms auto-revert timer is scheduled), and submit is
clicked again before that timer fires (status `updating`, timer still
pending). -/
def staleTimerWorld : World :=
  applyButtonClick (updateThresholdResolve none (applyButtonClick initWorld))

/-- C6 counterexample: in `staleTimerWorld` the controller has re-entered
`updating` while the auto-revert timer scheduled by the previous `error`
entry is still pending, and when that stale timer fires it sets the status
to `idle` — overwriting the newer `updating` state.  Nothing in the source
cancels or invalidates a scheduled timer. -/
theorem C6_counterexample :
    staleTimerWorld.app.status = Status.updating ∧
    staleTimerWorld.timers = [3000] ∧
    (statusTimerFire staleTimerWorld).app.status = Status.idle := by
  refine ⟨by decide, by decide, by decide⟩

/-- C6 (amended): auto-revert timers carry no cancellation token — whenever
any scheduled timer fires, its callback unconditionally sets the status to
`idle`, whatever transitions happened since it was scheduled, so a stale
timer can overwrite a newer state. -/
theorem C6_timer_never_cancelled (w : World) (h : w.timers ≠ []) :
    (statusTimerFire w).app.status = Status.idle ∧
    (statusTimerFire w).timers = w.timers.tail := by
  cases ht : w.timers with
  | nil => exact absurd ht h
  | cons d rest => simp [statusTimerFire, ht]

/-- Witness for C6 (amended) at the stale-timer world. -/
theorem C6_timer_never_cancelled_witness :
    staleTimerWorld.timers ≠ [] ∧
    ((statusTimerFire staleTimerWorld).app.status = Status.idle ∧
     (statusTimerFire staleTimerWorld).timers = staleTimerWorld.timers.tail) :=
  ⟨by decide, C6_timer_never_cancelled staleTimerWorld (by decide)⟩

/-- C7: from any quiescent idle world, a submit whose write request fails
drives the status idle → updating → error, schedules the 3000 ms auto-revert
whose firing returns the status to idle, and the applied threshold is
unchanged from its pre-submit value at every step of the episode. -/
theorem C7_error_episode (w : World) (hs : w.app.status = Status.idle)
    (ht : w.timers = []) :
    (applyButtonClick w).app.status = Status.updating ∧
    (updateThresholdResolve none (applyButtonClick w)).app.status = Status.error ∧
    (updateThresholdResolve none (applyButtonClick w)).timers = [3000] ∧
    (statusTimerFire (updateThresholdResolve none (applyButtonClick w))).app.status
      = Status.idle ∧
    (applyButtonClick w).app.threshold = w.app.threshold ∧
    (updateThresholdResolve none (applyButtonClick w)).app.threshold = w.app.threshold ∧
    (statusTimerFire (updateThresholdResolve none (applyButtonClick w))).app.threshold
      = w.app.threshold := by
  have hne : ¬ w.app.status = Status.updating := by simp [hs]
  simp [applyButtonClick, updateThresholdStart, updateThresholdResolve,
    statusTimerFire, hne, ht]

/-- Witness for C7 at the initial world. -/
theorem C7_error_episode_witness :
    initWorld.app.status = Status.idle ∧ initWorld.timers = [] ∧
    ((applyButtonClick initWorld).app.status = Status.updating ∧
     (updateThresholdResolve none (applyButtonClick initWorld)).app.status = Status.error ∧
     (updateThresholdResolve none (applyButtonClick initWorld)).timers = [3000] ∧
     (statusTimerFire (updateThresholdResolve none (applyButtonClick initWorld))).app.status
       = Status.idle ∧
     (applyButtonClick initWorld).app.threshold = initWorld.app.threshold ∧
     (updateThresholdResolve none (applyButtonClick initWorld)).app.threshold
       = initWorld.app.threshold ∧
     (statusTimerFire (updateThresholdResolve none (applyButtonClick initWorld))).app.threshold
       = initWorld.app.threshold) :=
  ⟨rfl, rfl, C7_error_episode initWorld rfl rfl⟩

/-- C8: a failed `fetchData` and a failed `fetchConfig` (network error or
non-ok status, both modelled by `none`) leave every state cell — the chart
buffer, the current-value projection, and the threshold state — exactly as
it was. -/
theorem C8_failures_preserve_state (s : AppState) :
    fetchData none s = s ∧ fetchConfig none s = s :=
  ⟨rfl, rfl⟩

/-- C9: a successful initial fetch installs the reversal of the newest-first
response as the chart buffer and sets the current-value cells from the
response's first (newest) record. -/
theorem C9_loadInitial_reverses (items : List Sample) (i : Sample) (s : AppState)
    (h : items.head? = some i) :
    (fetchData (some items) s).data = snapshot (insertBatch items) ∧
    (fetchData (some items) s).data = items.reverse ∧
    (fetchData (some items) s).currentTemp = i.temperature ∧
    (fetchData (some items) s).currentFanSpeed = i.fanSpeed ∧
    (fetchData (some items) s).lastUpdate = some i.timestamp := by
  have hg : (insertBatch items).getLast? = some i := by
    rw [insertBatch, List.getLast?_reverse]; exact h
  simp only [fetchData, hg]
  simp [snapshot, insertBatch]

/-- Witness for C9 at the spec's concrete scenario: the newest-first feed
`[{ts 100, temp 25}, {ts 50, temp 22}]` yields the chronological snapshot
`[{ts 50}, {ts 100}]` and a current state reflecting ts 100. -/
theorem C9_loadInitial_reverses_witness :
    batchPair.head? = some { timestamp := 100, temperature := 25, fanSpeed := 0 } ∧
    ((fetchData (some batchPair) initState).data = snapshot (insertBatch batchPair) ∧
     (fetchData (some batchPair) initState).data = batchPair.reverse ∧
     (fetchData (some batchPair) initState).currentTemp = (25 : ℚ) ∧
     (fetchData (some batchPair) initState).currentFanSpeed = (0 : Int) ∧
     (fetchData (some batchPair) initState).lastUpdate = some 100) :=
  ⟨by decide,
   C9_loadInitial_reverses batchPair
     { timestamp := 100, temperature := 25, fanSpeed := 0 } initState (by decide)⟩

/-- C10: the `data_update` push handler overwrites the current-value cells
with exactly the event's payload, unconditionally — in particular for events
whose timestamp is older than the stored last-update time, since the source
performs no monotonicity check. -/
theorem C10_current_overwritten (ev : Sample) (s : AppState) :
    (handleDataUpdate ev s).currentTemp = ev.temperature ∧
    (handleDataUpdate ev s).currentFanSpeed = ev.fanSpeed ∧
    (handleDataUpdate ev s).lastUpdate = some ev.timestamp :=
  ⟨rfl, rfl, rfl⟩
